import Mathlib

/-!
Shallow embedding of the scoring and issue-identification engine of the
school-assessment repository: the tiering engine (`getTier`,
`performAnalysis` in DynamicDataAnalyzer.tsx), the aggregate averages
(`mainDomainAverages`, the sub-category averages of `systemicStrengths`
and the heat-map export, `calculateAverageForCategory` in the issue
selection step), the issue identification engine (`analyzeSchoolData`,
`buildSchoolDetails`) and the report-card builder (`createReportCardData`).

Score slots are strings in the source and are read through `parseInt` /
`parseFloat`; a slot is modelled by its parse result: `none` stands for a
slot whose parse is `NaN` (empty or non-numeric), `some v` for the parsed
numeric value `v`.  All arithmetic is over `ℚ`.  The taxonomy constants
(`ALL_SCORE_FIELDS`, `HIERARCHICAL_CATEGORIES`,
`BOOKLET_ISSUE_TO_METRICS_MAP`, `METRIC_TO_CHALLENGE_MAP`) are
configuration data supplied from a constants module; the functions below
take them as parameters, exactly as the source reads them from the maps.
-/

/-- The parse result of one score slot: `none` models `parseInt`/`parseFloat`
returning `NaN`, `some v` the parsed numeric value. -/
abbrev ScoreSlot := Option ℚ

/-- One row of the score table.  `score` gives the parsed slot for each
metric key; `students` is the parse result of the `students` field. -/
structure School where
  id : ℕ
  name : String
  students : Option ℤ
  score : String → ScoreSlot

/-- A school together with the derived performance tier that
`performAnalysis` attaches to it. -/
structure SchoolForAnalysis where
  base : School
  tier : ℕ

/-- Tier classification of one school, from `getTier` in
DynamicDataAnalyzer.tsx.  `fields` is the `ALL_SCORE_FIELDS` constant.
The source maps each field through `parseFloat(school[field]) || 0`
(modelled by `Option.getD 0`) and keeps the strictly positive results. -/
def getTier (fields : List String) (school : School) : ℕ :=
  let allScores := (fields.map (fun field => (school.score field).getD 0)).filter
    (fun score => 0 < score)
  if allScores.length < 5 then 2
  else
    let overallAverage := allScores.sum / (allScores.length : ℚ)
    let criticalScoresCount := (allScores.filter (fun score => score ≤ 3/2)).length
    if overallAverage < 11/5 then 3
    else if 16/5 < overallAverage ∧ criticalScoresCount < 2 then 1
    else 2

/-- The `summary` record assembled by `performAnalysis`. -/
structure AnalysisSummary where
  totalSchools : ℕ
  totalStudents : ℤ
  lowPerformanceSchools : ℕ
  excellentSchools : ℕ

/-- The three tier buckets of `performanceClassification`. -/
structure PerformanceClassification where
  tier1 : List SchoolForAnalysis
  tier2 : List SchoolForAnalysis
  tier3 : List SchoolForAnalysis

/-- The analysis result record of `performAnalysis` (the fields the engine
actually computes; the remaining fields of the source record are constant
placeholders). -/
structure AnalysisData where
  schools : List SchoolForAnalysis
  summary : AnalysisSummary
  performanceClassification : PerformanceClassification

/-- The `performAnalysis` callback of DynamicDataAnalyzer.tsx: attach a
tier to every school, bucket by tier, and build the summary counts. -/
def performAnalysis (fields : List String) (data : List School) : AnalysisData :=
  let schoolsForAnalysis := data.map (fun school =>
    { base := school, tier := getTier fields school : SchoolForAnalysis })
  let tier1 := schoolsForAnalysis.filter (fun s => s.tier == 1)
  let tier2 := schoolsForAnalysis.filter (fun s => s.tier == 2)
  let tier3 := schoolsForAnalysis.filter (fun s => s.tier == 3)
  { schools := schoolsForAnalysis
    summary :=
      { totalSchools := data.length
        totalStudents := (data.map (fun s => s.students.getD 0)).sum
        lowPerformanceSchools := tier3.length
        excellentSchools := tier1.length }
    performanceClassification := { tier1 := tier1, tier2 := tier2, tier3 := tier3 } }

/-- The score filter used everywhere in the issue engine and the report
card: `parseInt(...)` with `!isNaN(score) && score > 0` keeps the value,
anything else is dropped. -/
def positiveScore (school : School) (metric : String) : Option ℚ :=
  match school.score metric with
  | some v => if 0 < v then some v else none
  | none => none

/-- The per-school affected-metric filter of `buildSchoolDetails`:
`!isNaN(score) && score <= 2` — note that, unlike `positiveScore`, it does
not require the score to be positive. -/
def lowScoreFlag (school : School) (metric : String) : Bool :=
  match school.score metric with
  | some v => decide (v ≤ 2)
  | none => false

/-- `calculateAverageForCategory` of the issue selection step: the mean of
all set positive scores of the given metrics across the school set, 0 when
there are none (or the metric list or school set is empty). -/
def calculateAverageForCategory (metrics : List String)
    (schoolSet : List SchoolForAnalysis) : ℚ :=
  if metrics.length = 0 ∨ schoolSet.length = 0 then 0
  else
    let scores := schoolSet.flatMap (fun school => metrics.filterMap (positiveScore school.base))
    if scores.length = 0 then 0 else scores.sum / (scores.length : ℚ)

/-- Per-school severity of a school's detail row. -/
inductive DetailSeverity
  | critical
  | high
  | medium
deriving DecidableEq, Repr

/-- Issue-level severity bucket. -/
inductive IssueSeverity
  | critical
  | high
  | medium
  | low
deriving DecidableEq, Repr

/-- One row of an issue's per-school drill-down list. -/
structure SchoolIssueDetail where
  schoolId : ℕ
  schoolName : String
  performanceTier : ℕ
  severity : DetailSeverity
  affectedMetrics : List String

/-- The per-school severity thresholds of `buildSchoolDetails`: inclusive
bounds 70 and 40 on the percentage of affected metrics. -/
def detailSeverityOf (percentage : ℚ) : DetailSeverity :=
  if 70 ≤ percentage then .critical
  else if 40 ≤ percentage then .high
  else .medium

/-- The body of `buildSchoolDetails` for one school.  `metricDisplay`
stands for the source's display-text lookup
`METRIC_TO_CHALLENGE_MAP[key] || fallback` (configuration data). -/
def buildSchoolDetail (metricDisplay : String → String) (metrics : List String)
    (school : SchoolForAnalysis) : Option SchoolIssueDetail :=
  let affectedMetricsForSchool := metrics.filter (lowScoreFlag school.base)
  if affectedMetricsForSchool.length = 0 then none
  else
    let percentage : ℚ := ((affectedMetricsForSchool.length : ℚ) / (metrics.length : ℚ)) * 100
    some
      { schoolId := school.base.id
        schoolName := school.base.name
        performanceTier := school.tier
        severity := detailSeverityOf percentage
        affectedMetrics := affectedMetricsForSchool.map metricDisplay }

/-- `buildSchoolDetails` of the issue selection step: empty when the issue
has no metrics, otherwise one row per school with at least one affected
metric. -/
def buildSchoolDetails (metricDisplay : String → String) (metrics : List String)
    (schools : List SchoolForAnalysis) : List SchoolIssueDetail :=
  if metrics.length = 0 then []
  else schools.filterMap (buildSchoolDetail metricDisplay metrics)

/-- JavaScript `Math.round` on the (non-negative) urgency fraction:
round half away from zero, i.e. `⌊q + 1/2⌋` for `q ≥ 0`. -/
def jsRound (q : ℚ) : ℤ := ⌊q + 1/2⌋

/-- The issue-level severity bucket of `analyzeSchoolData`: strict lower
bounds 0.4 / 0.25 / 0.1 on the final score. -/
def issueSeverityOf (finalScore : ℚ) : IssueSeverity :=
  if 2/5 < finalScore then .critical
  else if 1/4 < finalScore then .high
  else if 1/10 < finalScore then .medium
  else .low

/-- The urgency integer of `analyzeSchoolData`:
`Math.round(((scopeScore * 0.6) + (severityScore * 0.4)) * 100)`. -/
def urgencyOf (scopeScore severityScore : ℚ) : ℤ :=
  jsRound ((scopeScore * (3/5) + severityScore * (2/5)) * 100)

/-- One identified issue, as assembled by `analyzeSchoolData` (the display
fields `name`, `description` and `category` are copied verbatim from the
issue catalog and are omitted). -/
structure Issue where
  id : String
  affectedSchools : ℕ
  totalSchools : ℕ
  severity : IssueSeverity
  urgency : ℤ
  schoolDetails : List SchoolIssueDetail
  overallAverage : ℚ
  tier1Average : ℚ
  tier2Average : ℚ
  tier3Average : ℚ

/-- The `totalScoresCount` accumulator of `analyzeSchoolData`: over all
schools, the number of the issue's metrics with a set positive score. -/
def issueTotalScoresCount (metrics : List String) (schools : List SchoolForAnalysis) : ℕ :=
  (schools.map (fun school => (metrics.filterMap (positiveScore school.base)).length)).sum

/-- The `totalLowScores` accumulator of `analyzeSchoolData`: over all
schools, the number of the issue's metrics with a set positive score that
is at most 2. -/
def issueTotalLowScores (metrics : List String) (schools : List SchoolForAnalysis) : ℕ :=
  (schools.map (fun school =>
    ((metrics.filterMap (positiveScore school.base)).filter (fun v => v ≤ 2)).length)).sum

/-- The `affectedSchoolIds` set of `analyzeSchoolData`: the distinct ids of
the schools with at least one set positive score ≤ 2 among the issue's
metrics (`hasLowScoreInIssue`). -/
def issueAffectedIds (metrics : List String) (schools : List SchoolForAnalysis) : List ℕ :=
  ((schools.filter (fun school =>
    (metrics.filterMap (positiveScore school.base)).any (fun v => v ≤ 2))).map
      (fun school => school.base.id)).dedup

/-- The per-issue body of `analyzeSchoolData`: count set positive scores
and low (≤ 2) scores of the issue's metrics over all schools, collect the
distinct ids of schools with at least one low score, drop the issue when
no school is affected, otherwise score it and attach the drill-down rows
and the tier averages. -/
def analyzeIssue (metricDisplay : String → String) (issueId : String)
    (metrics : List String) (schools : List SchoolForAnalysis) : Option Issue :=
  let totalScoresCount := issueTotalScoresCount metrics schools
  let totalLowScores := issueTotalLowScores metrics schools
  let affectedSchoolsCount := (issueAffectedIds metrics schools).length
  if affectedSchoolsCount = 0 then none
  else
    let scopeScore : ℚ := (affectedSchoolsCount : ℚ) / (schools.length : ℚ)
    let severityScore : ℚ :=
      (totalLowScores : ℚ) / ((if totalScoresCount = 0 then 1 else totalScoresCount : ℕ) : ℚ)
    let finalScore := scopeScore * (3/5) + severityScore * (2/5)
    some
      { id := issueId
        affectedSchools := affectedSchoolsCount
        totalSchools := schools.length
        severity := issueSeverityOf finalScore
        urgency := urgencyOf scopeScore severityScore
        schoolDetails := buildSchoolDetails metricDisplay metrics schools
        overallAverage := calculateAverageForCategory metrics schools
        tier1Average := calculateAverageForCategory metrics (schools.filter (fun s => s.tier == 1))
        tier2Average := calculateAverageForCategory metrics (schools.filter (fun s => s.tier == 2))
        tier3Average := calculateAverageForCategory metrics (schools.filter (fun s => s.tier == 3)) }

/-- The issue identification engine `analyzeSchoolData`: analyze every
candidate issue id (its metric set resolved through the configuration map
`metricsMap`, the source's `BOOKLET_ISSUE_TO_METRICS_MAP`), drop the
`none` results, and sort descending by urgency (JavaScript's stable
sort). -/
def analyzeSchoolData (metricDisplay : String → String)
    (metricsMap : String → List String) (issueIds : List String)
    (schools : List SchoolForAnalysis) : List Issue :=
  (issueIds.filterMap (fun i => analyzeIssue metricDisplay i (metricsMap i) schools)).mergeSort
    (fun a b => decide (b.urgency ≤ a.urgency))

/-- A taxonomy leaf: one scored metric. -/
structure Metric where
  key : String
  name : String

/-- A taxonomy sub-category. -/
structure SubCategory where
  name : String
  metrics : List Metric

/-- A taxonomy top-level category. -/
structure Category where
  name : String
  subCategories : List SubCategory

/-- The `subCatMetricsWithScores` list of `createReportCardData`: the
sub-category's metrics paired with their parsed score, keeping only set
positive scores. -/
def subCatMetricsWithScores (school : School) (subCat : SubCategory) :
    List (Metric × ℚ) :=
  subCat.metrics.filterMap (fun m =>
    match positiveScore school m.key with
    | some v => some (m, v)
    | none => none)

/-- One entry of the report card's challenges list. -/
structure Challenge where
  subCategory : String
  text : String

/-- The challenge entries that `createReportCardData` emits for one
sub-category: skip the sub-category when it has no scored metric or its
average is at least 3.5; otherwise one entry per scored metric with score
at most 3.  `challengeText` is the configuration map
`METRIC_TO_CHALLENGE_MAP`; when a key has no entry the source falls back
to a generated phrase around the metric name. -/
def subCatChallenges (challengeText : String → Option String) (school : School)
    (subCat : SubCategory) : List Challenge :=
  let scored := subCatMetricsWithScores school subCat
  if scored.length = 0 then []
  else
    let subCatAvg := (scored.map (fun p => p.2)).sum / (scored.length : ℚ)
    if subCatAvg < 7/2 then
      (scored.filter (fun p => p.2 ≤ 3)).map (fun p =>
        { subCategory := subCat.name
          text := (challengeText p.1.key).getD
            ("תפקוד נמוך במדד: \"" ++ p.1.name ++ "\"") })
    else []

/-- The full challenges list of `createReportCardData`: the sub-category
emissions in taxonomy order. -/
def reportCardChallenges (challengeText : String → Option String)
    (cats : List Category) (school : School) : List Challenge :=
  cats.flatMap (fun category => category.subCategories.flatMap (subCatChallenges challengeText school))

/-- The report card's overall average in `createReportCardData`: mean of
the set positive scores over all score fields, 0 when there are none. -/
def reportCardOverallAverage (fields : List String) (school : School) : ℚ :=
  let scores := (fields.map (fun field => (school.score field).getD 0)).filter
    (fun s => 0 < s)
  if scores.length = 0 then 0 else scores.sum / (scores.length : ℚ)

/-- One main-domain average of `mainDomainAverages` in the aggregate
dashboard: mean of every set positive score of the category's metrics
across all schools, 0 when there are none. -/
def mainDomainAverage (schools : List SchoolForAnalysis) (mainCat : Category) : ℚ :=
  let allMetrics := mainCat.subCategories.flatMap (fun sc => sc.metrics)
  let allScores := schools.flatMap (fun school =>
    allMetrics.filterMap (fun m => positiveScore school.base m.key))
  if allScores.length = 0 then 0 else allScores.sum / (allScores.length : ℚ)

/-- One sub-category average as computed by `systemicStrengths` and the
heat-map export: mean of every set positive score of the sub-category's
metrics across all schools, 0 when there are none. -/
def subCategoryAverage (schools : List SchoolForAnalysis) (subCat : SubCategory) : ℚ :=
  let subCatScores := schools.flatMap (fun school =>
    subCat.metrics.filterMap (fun m => positiveScore school.base m.key))
  if subCatScores.length = 0 then 0 else subCatScores.sum / (subCatScores.length : ℚ)

/-! ### Helper lemmas -/

/-- Mapping each slot through `getD 0` and then keeping positives gives the
same list as keeping the set slots and then the positives: an unset slot
becomes 0 and is dropped by the positivity filter. -/
theorem map_getD_filter_pos (score : String → ScoreSlot) (l : List String) :
    (l.map (fun f => (score f).getD 0)).filter (fun v => decide (0 < v))
      = (l.filterMap score).filter (fun v => decide (0 < v)) := by
  induction l with
  | nil => rfl
  | cons f t ih =>
    cases h : score f with
    | none => simp [List.filter_cons, h, ih, lt_self_iff_false]
    | some v => simp only [List.map_cons, List.filterMap_cons, h, List.filter_cons,
        Option.getD_some, ih]

/-! ### Claim C1 -/

/-- The tier classification as the claim words it: let S be the positive
set metric scores; fewer than five of them give tier 2; otherwise tier 3
when the mean is below 2.2, tier 1 when the mean exceeds 3.2 and fewer
than two scores are at most 1.5, tier 2 otherwise. -/
def tierSpec (fields : List String) (school : School) : ℕ :=
  let S := (fields.filterMap school.score).filter (fun v => 0 < v)
  if S.length < 5 then 2
  else
    let avg := S.sum / (S.length : ℚ)
    let criticalCount := (S.filter (fun v => v ≤ 3/2)).length
    if avg < 11/5 then 3
    else if 16/5 < avg ∧ criticalCount < 2 then 1
    else 2

/-- C1: for every school, `getTier` computes the tier exactly as the claim
describes: with S the set positive metric scores, tier 2 when `|S| < 5`,
else tier 3 when `mean S < 2.2`, else tier 1 when `mean S > 3.2` and fewer
than two scores of S are ≤ 1.5, else tier 2. -/
theorem getTier_eq_tierSpec (fields : List String) (school : School) :
    getTier fields school = tierSpec fields school := by
  unfold getTier tierSpec
  rw [map_getD_filter_pos]

/-! ### Claim C6 -/

/-- C6 (amended): for every school whose positive set scores number at
least five, a mean below 2.2 forces tier 3, whatever the critical count. -/
theorem getTier_low_average_tier3 (fields : List String) (school : School)
    (S : List ℚ)
    (hS : S = (fields.map (fun f => (school.score f).getD 0)).filter (fun v => decide (0 < v)))
    (h5 : 5 ≤ S.length) (havg : S.sum / (S.length : ℚ) < 11/5) :
    getTier fields school = 3 := by
  unfold getTier
  rw [← hS, if_neg (by omega), if_pos havg]

/-- C6 (counterexample): a school with exactly four scored metrics, all 1,
has mean of positive scores 1 < 2.2 yet tier 2, not 3: the claim's "no
further precondition on the number of positive scores" fails because
`getTier` returns tier 2 for fewer than five positive scores before ever
looking at the mean. -/
theorem getTier_low_average_not_tier3 :
    (let S := ((["f1", "f2", "f3", "f4"].map
        (fun f => ((fun _ => some 1 : String → ScoreSlot) f).getD 0)).filter
          (fun v => decide (0 < v)));
      S.sum / (S.length : ℚ) < 11/5 ∧ S.length ≠ 0) ∧
    getTier ["f1", "f2", "f3", "f4"]
      { id := 1, name := "s", students := none, score := fun _ => some 1 } ≠ 3 := by
  refine ⟨⟨?_, ?_⟩, ?_⟩ <;> norm_num [getTier, List.filter_cons]

/-- C6 (witness): a school with five scored metrics, all 1, has at least
five positive scores and mean 1 < 2.2, so the amended claim places it in
tier 3. -/
theorem getTier_low_average_tier3_witness :
    getTier ["f1", "f2", "f3", "f4", "f5"]
      { id := 1, name := "s", students := none, score := fun _ => some 1 } = 3 := by
  refine getTier_low_average_tier3 _ _ [1, 1, 1, 1, 1] ?_ (by norm_num) (by norm_num)
  norm_num [List.filter_cons]

/-! ### Shared characterization of a returned issue -/

/-- Unfolding lemma for a successful `analyzeIssue`: the result is `some`
exactly when some school is affected, and then every field of the returned
issue is the corresponding computed value. -/
theorem analyzeIssue_eq_some_iff (metricDisplay : String → String) (issueId : String)
    (metrics : List String) (schools : List SchoolForAnalysis) (issue : Issue) :
    analyzeIssue metricDisplay issueId metrics schools = some issue ↔
      (issueAffectedIds metrics schools).length ≠ 0 ∧
      issue =
        { id := issueId
          affectedSchools := (issueAffectedIds metrics schools).length
          totalSchools := schools.length
          severity := issueSeverityOf
            (((issueAffectedIds metrics schools).length : ℚ) / (schools.length : ℚ) * (3/5)
              + ((issueTotalLowScores metrics schools : ℚ)
                  / ((if issueTotalScoresCount metrics schools = 0 then 1
                      else issueTotalScoresCount metrics schools : ℕ) : ℚ)) * (2/5))
          urgency := urgencyOf
            (((issueAffectedIds metrics schools).length : ℚ) / (schools.length : ℚ))
            ((issueTotalLowScores metrics schools : ℚ)
              / ((if issueTotalScoresCount metrics schools = 0 then 1
                  else issueTotalScoresCount metrics schools : ℕ) : ℚ))
          schoolDetails := buildSchoolDetails metricDisplay metrics schools
          overallAverage := calculateAverageForCategory metrics schools
          tier1Average := calculateAverageForCategory metrics
            (schools.filter (fun s => s.tier == 1))
          tier2Average := calculateAverageForCategory metrics
            (schools.filter (fun s => s.tier == 2))
          tier3Average := calculateAverageForCategory metrics
            (schools.filter (fun s => s.tier == 3)) } := by
  by_cases h0 : (issueAffectedIds metrics schools).length = 0
  · unfold analyzeIssue
    rw [if_pos h0]
    simp [h0]
  · unfold analyzeIssue
    rw [if_neg h0, Option.some.injEq]
    exact ⟨fun h => ⟨h0, h.symm⟩, fun h => h.2.symm⟩

/-! ### Claim C9 -/

/-- Every tier that `getTier` can produce is 1, 2 or 3. -/
theorem getTier_mem (fields : List String) (school : School) :
    getTier fields school = 1 ∨ getTier fields school = 2 ∨ getTier fields school = 3 := by
  unfold getTier
  dsimp only
  split
  · exact Or.inr (Or.inl rfl)
  · split
    · exact Or.inr (Or.inr rfl)
    · split
      · exact Or.inl rfl
      · exact Or.inr (Or.inl rfl)

/-- A list of analysed schools whose tiers all lie in 1..3 is partitioned
by the three tier filters. -/
theorem length_filter_tier_partition (l : List SchoolForAnalysis)
    (h : ∀ s ∈ l, s.tier = 1 ∨ s.tier = 2 ∨ s.tier = 3) :
    (l.filter (fun s => s.tier == 1)).length + (l.filter (fun s => s.tier == 2)).length
      + (l.filter (fun s => s.tier == 3)).length = l.length := by
  induction l with
  | nil => rfl
  | cons a t ih =>
    have ha := h a (List.mem_cons_self a t)
    have ht := ih (fun s hs => h s (List.mem_cons_of_mem _ hs))
    rcases ha with h1 | h1 | h1 <;>
      simp [List.filter_cons, h1] <;> omega

/-- C9: `performAnalysis` gives every school exactly one tier in 1..3 and
the three tier buckets partition the input: their lengths sum to
`summary.totalSchools`, which is the number of input schools, with
`lowPerformanceSchools` the size of tier 3 and `excellentSchools` the size
of tier 1. -/
theorem performAnalysis_partition (fields : List String) (data : List School) :
    (∀ s ∈ (performAnalysis fields data).schools,
        s.tier = 1 ∨ s.tier = 2 ∨ s.tier = 3) ∧
    (performAnalysis fields data).performanceClassification.tier1.length
      + (performAnalysis fields data).performanceClassification.tier2.length
      + (performAnalysis fields data).performanceClassification.tier3.length
      = (performAnalysis fields data).summary.totalSchools ∧
    (performAnalysis fields data).summary.totalSchools = data.length ∧
    (performAnalysis fields data).summary.lowPerformanceSchools
      = (performAnalysis fields data).performanceClassification.tier3.length ∧
    (performAnalysis fields data).summary.excellentSchools
      = (performAnalysis fields data).performanceClassification.tier1.length := by
  have hmem : ∀ s ∈ (performAnalysis fields data).schools,
      s.tier = 1 ∨ s.tier = 2 ∨ s.tier = 3 := by
    intro s hs
    simp only [performAnalysis, List.mem_map] at hs
    obtain ⟨school, _, rfl⟩ := hs
    exact getTier_mem fields school
  refine ⟨hmem, ?_, rfl, rfl, rfl⟩
  have hpart := length_filter_tier_partition
    (data.map (fun school => { base := school, tier := getTier fields school })) ?_
  · simpa [performAnalysis] using hpart
  · intro s hs
    simp only [List.mem_map] at hs
    obtain ⟨school, _, rfl⟩ := hs
    exact getTier_mem fields school

/-- A concrete one-school input for the C9 witness. -/
def w9School : School where
  id := 1
  name := "a"
  students := none
  score := fun _ => some 1

/-- C9 (witness): the partition identity evaluated on a concrete
one-school input. -/
theorem performAnalysis_partition_witness :
    (performAnalysis ["f1"] [w9School]).performanceClassification.tier1.length
      + (performAnalysis ["f1"] [w9School]).performanceClassification.tier2.length
      + (performAnalysis ["f1"] [w9School]).performanceClassification.tier3.length
      = (performAnalysis ["f1"] [w9School]).summary.totalSchools :=
  (performAnalysis_partition ["f1"] [w9School]).2.1

/-! ### Claim C7 -/

/-- C7: every issue returned by the issue identification engine has a
positive count of affected schools, and an issue whose metric set is empty
is analysed to `none` (dropped entirely). -/
theorem analyzeSchoolData_affected_pos (metricDisplay : String → String)
    (metricsMap : String → List String) (issueIds : List String)
    (schools : List SchoolForAnalysis) :
    (∀ issue ∈ analyzeSchoolData metricDisplay metricsMap issueIds schools,
        0 < issue.affectedSchools) ∧
    (∀ issueId, analyzeIssue metricDisplay issueId [] schools = none) := by
  constructor
  · intro issue hmem
    rw [analyzeSchoolData, List.mem_mergeSort, List.mem_filterMap] at hmem
    obtain ⟨i, _, hi⟩ := hmem
    rw [analyzeIssue_eq_some_iff] at hi
    obtain ⟨h0, rfl⟩ := hi
    exact Nat.pos_of_ne_zero h0
  · intro issueId
    unfold analyzeIssue
    have h : issueAffectedIds [] schools = [] := by
      unfold issueAffectedIds
      simp
    rw [h]
    simp

/-- A concrete analysed school for the C7 witness: one metric scored 2. -/
def wSchool : SchoolForAnalysis where
  base :=
    { id := 1
      name := "s"
      students := none
      score := fun _ => some 2 }
  tier := 2

/-- The issue that the engine returns for [`wSchool`] and the single
metric `m1`. -/
def wIssue : Issue where
  id := "i"
  affectedSchools := 1
  totalSchools := 1
  severity := .critical
  urgency := 100
  schoolDetails := [{ schoolId := 1, schoolName := "s", performanceTier := 2, severity := .critical, affectedMetrics := ["m1"] }]
  overallAverage := 2
  tier1Average := 0
  tier2Average := 2
  tier3Average := 0

/-- Concrete evaluation of `analyzeIssue` on [`wSchool`] and the single
metric `m1`. -/
theorem analyzeIssue_concrete :
    analyzeIssue (fun k => k) "i" ["m1"] [wSchool] = some wIssue := by
  rw [analyzeIssue_eq_some_iff]
  constructor
  · norm_num [issueAffectedIds, positiveScore, wSchool]
  · norm_num [wIssue, wSchool, issueAffectedIds, issueTotalScoresCount,
      issueTotalLowScores, positiveScore, urgencyOf, jsRound, issueSeverityOf,
      buildSchoolDetails, buildSchoolDetail, lowScoreFlag, detailSeverityOf,
      calculateAverageForCategory, List.filter_cons, List.filterMap_cons,
      List.filterMap_nil, List.dedup_cons_of_not_mem, List.dedup_nil]

/-- C7 (witness): on a concrete one-school, one-issue input, the single
returned issue has a positive affected-school count. -/
theorem analyzeSchoolData_affected_pos_witness : 0 < wIssue.affectedSchools :=
  (analyzeSchoolData_affected_pos (fun k => k) (fun _ => ["m1"]) ["i"]
    [wSchool]).1 _ (by
      rw [analyzeSchoolData, List.mem_mergeSort, List.mem_filterMap]
      exact ⟨"i", by simp, analyzeIssue_concrete⟩)

/-! ### Claim C8 -/

/-- C8: the urgency integer is monotonically non-decreasing in the scope
score with the severity score held fixed, and in the severity score with
the scope score held fixed. -/
theorem urgencyOf_monotone (s s' v v' : ℚ) :
    (s ≤ s' → urgencyOf s v ≤ urgencyOf s' v) ∧
    (v ≤ v' → urgencyOf s v ≤ urgencyOf s v') := by
  constructor
  · intro h
    unfold urgencyOf jsRound
    apply Int.floor_le_floor
    nlinarith
  · intro h
    unfold urgencyOf jsRound
    apply Int.floor_le_floor
    nlinarith

/-- C8 (witness): monotonicity evaluated at concrete component scores. -/
theorem urgencyOf_monotone_witness : urgencyOf 0 (1/2) ≤ urgencyOf 1 (1/2) :=
  (urgencyOf_monotone 0 1 (1/2) (1/2)).1 (by norm_num)

/-! ### Claim C2 -/

/-- The urgency fraction as the claim words it:
`0.6 * scopeScore + 0.4 * severityScore`, with
`scopeScore = affectedSchoolsCount / totalSchoolCount` and
`severityScore = totalLowScores / max(totalScoresCount, 1)`. -/
def urgencyFraction (metrics : List String) (schools : List SchoolForAnalysis) : ℚ :=
  3/5 * (((issueAffectedIds metrics schools).length : ℚ) / (schools.length : ℚ))
    + 2/5 * ((issueTotalLowScores metrics schools : ℚ)
        / ((max (issueTotalScoresCount metrics schools) 1 : ℕ) : ℚ))

/-- The `totalScoresCount || 1` guard of the source equals
`max(totalScoresCount, 1)`. -/
theorem if_zero_eq_max (n : ℕ) : (if n = 0 then 1 else n) = max n 1 := by
  rcases Nat.eq_zero_or_pos n with h | h
  · simp [h]
  · rw [if_neg (Nat.pos_iff_ne_zero.mp h), Nat.max_eq_left h]

/-- Characterization of the issue-level severity bucket: strict lower
bounds, so a fraction of exactly 0.4 is "high", not "critical". -/
theorem issueSeverityOf_iff (f : ℚ) :
    (issueSeverityOf f = .critical ↔ 2/5 < f) ∧
    (issueSeverityOf f = .high ↔ 1/4 < f ∧ f ≤ 2/5) ∧
    (issueSeverityOf f = .medium ↔ 1/10 < f ∧ f ≤ 1/4) ∧
    (issueSeverityOf f = .low ↔ f ≤ 1/10) := by
  unfold issueSeverityOf
  split_ifs with h1 h2 h3 <;>
    refine ⟨?_, ?_, ?_, ?_⟩ <;>
      constructor <;> intro hx <;> simp_all <;> linarith

/-- C2: for every issue the engine returns (so with at least one affected
school), the urgency equals `round((0.6·scope + 0.4·severity)·100)` with
`scope = affectedSchoolsCount / totalSchoolCount` and
`severity = totalLowScores / max(totalScoresCount, 1)`, and the issue-level
severity bucket uses strict lower bounds: in particular a fraction of
exactly 0.4 yields "high", not "critical". -/
theorem analyzeIssue_urgency_severity (metricDisplay : String → String)
    (issueId : String) (metrics : List String) (schools : List SchoolForAnalysis)
    (issue : Issue) (h : analyzeIssue metricDisplay issueId metrics schools = some issue) :
    issue.affectedSchools = (issueAffectedIds metrics schools).length ∧
    issue.totalSchools = schools.length ∧
    issue.urgency = jsRound (urgencyFraction metrics schools * 100) ∧
    (issue.severity = .critical ↔ 2/5 < urgencyFraction metrics schools) ∧
    (issue.severity = .high ↔
      1/4 < urgencyFraction metrics schools ∧ urgencyFraction metrics schools ≤ 2/5) ∧
    (issue.severity = .medium ↔
      1/10 < urgencyFraction metrics schools ∧ urgencyFraction metrics schools ≤ 1/4) ∧
    (issue.severity = .low ↔ urgencyFraction metrics schools ≤ 1/10) ∧
    (urgencyFraction metrics schools = 2/5 → issue.severity = .high) := by
  rw [analyzeIssue_eq_some_iff] at h
  obtain ⟨h0, rfl⟩ := h
  have hF : (((issueAffectedIds metrics schools).length : ℚ) / (schools.length : ℚ)) * (3/5)
      + ((issueTotalLowScores metrics schools : ℚ)
          / ((if issueTotalScoresCount metrics schools = 0 then 1
              else issueTotalScoresCount metrics schools : ℕ) : ℚ)) * (2/5)
      = urgencyFraction metrics schools := by
    rw [if_zero_eq_max]
    unfold urgencyFraction
    ring
  refine ⟨rfl, rfl, ?_, ?_, ?_, ?_, ?_, ?_⟩
  · show urgencyOf _ _ = _
    unfold urgencyOf
    rw [← hF]
  · show issueSeverityOf _ = _ ↔ _
    rw [hF]
    exact (issueSeverityOf_iff _).1
  · show issueSeverityOf _ = _ ↔ _
    rw [hF]
    exact (issueSeverityOf_iff _).2.1
  · show issueSeverityOf _ = _ ↔ _
    rw [hF]
    exact (issueSeverityOf_iff _).2.2.1
  · show issueSeverityOf _ = _ ↔ _
    rw [hF]
    exact (issueSeverityOf_iff _).2.2.2
  · intro hf
    show issueSeverityOf _ = _
    rw [hF, hf]
    norm_num [issueSeverityOf]

/-- C2 (witness): the urgency formula evaluated on the concrete
one-school, one-metric input. -/
theorem analyzeIssue_urgency_severity_witness :
    wIssue.urgency = jsRound (urgencyFraction ["m1"] [wSchool] * 100) :=
  (analyzeIssue_urgency_severity (fun k => k) "i" ["m1"] [wSchool] wIssue
    analyzeIssue_concrete).2.2.1

/-! ### Claim C4 -/

/-- Characterization of the per-school detail severity thresholds:
inclusive bounds, so exactly 70 is critical and exactly 40 is high. -/
theorem detailSeverityOf_iff (p : ℚ) :
    (detailSeverityOf p = .critical ↔ 70 ≤ p) ∧
    (detailSeverityOf p = .high ↔ 40 ≤ p ∧ p < 70) ∧
    (detailSeverityOf p = .medium ↔ p < 40) := by
  unfold detailSeverityOf
  split_ifs with h1 h2
  · refine ⟨⟨fun _ => h1, fun _ => rfl⟩, ⟨?_, ?_⟩, ⟨?_, ?_⟩⟩
    · intro hx; simp at hx
    · intro hx; exact absurd h1 (not_le.mpr hx.2)
    · intro hx; simp at hx
    · intro hx; exact absurd h1 (not_le.mpr (by linarith))
  · refine ⟨⟨?_, ?_⟩, ⟨fun _ => ⟨h2, not_le.mp h1⟩, fun _ => rfl⟩, ⟨?_, ?_⟩⟩
    · intro hx; simp at hx
    · intro hx; exact absurd hx h1
    · intro hx; simp at hx
    · intro hx; exact absurd h2 (not_le.mpr hx)
  · refine ⟨⟨?_, ?_⟩, ⟨?_, ?_⟩, ⟨fun _ => not_le.mp h2, fun _ => rfl⟩⟩
    · intro hx; simp at hx
    · intro hx; exact absurd hx h1
    · intro hx; simp at hx
    · intro hx; exact absurd hx.1 h2

/-- C4: every detail row the engine produces carries the severity computed
from `percentage = affectedMetricCount / |M| * 100` with inclusive
thresholds: ≥ 70 critical, ≥ 40 high, else medium — so exactly 100 and
exactly 70 are critical and exactly 40 is high. -/
theorem buildSchoolDetail_severity (metricDisplay : String → String)
    (metrics : List String) (school : SchoolForAnalysis) (d : SchoolIssueDetail)
    (h : buildSchoolDetail metricDisplay metrics school = some d) :
    d.affectedMetrics.length = (metrics.filter (lowScoreFlag school.base)).length ∧
    (d.severity = .critical ↔
      70 ≤ ((metrics.filter (lowScoreFlag school.base)).length : ℚ)
        / (metrics.length : ℚ) * 100) ∧
    (d.severity = .high ↔
      40 ≤ ((metrics.filter (lowScoreFlag school.base)).length : ℚ)
          / (metrics.length : ℚ) * 100 ∧
        ((metrics.filter (lowScoreFlag school.base)).length : ℚ)
          / (metrics.length : ℚ) * 100 < 70) ∧
    (d.severity = .medium ↔
      ((metrics.filter (lowScoreFlag school.base)).length : ℚ)
        / (metrics.length : ℚ) * 100 < 40) ∧
    (((metrics.filter (lowScoreFlag school.base)).length : ℚ)
        / (metrics.length : ℚ) * 100 = 100 → d.severity = .critical) ∧
    (((metrics.filter (lowScoreFlag school.base)).length : ℚ)
        / (metrics.length : ℚ) * 100 = 70 → d.severity = .critical) ∧
    (((metrics.filter (lowScoreFlag school.base)).length : ℚ)
        / (metrics.length : ℚ) * 100 = 40 → d.severity = .high) := by
  unfold buildSchoolDetail at h
  by_cases h0 : (metrics.filter (lowScoreFlag school.base)).length = 0
  · rw [if_pos h0] at h
    exact absurd h (by simp)
  · rw [if_neg h0, Option.some.injEq] at h
    subst h
    refine ⟨by simp, ?_, ?_, ?_, ?_, ?_, ?_⟩
    · exact (detailSeverityOf_iff _).1
    · exact (detailSeverityOf_iff _).2.1
    · exact (detailSeverityOf_iff _).2.2
    · intro hp
      show detailSeverityOf _ = _
      rw [hp]
      norm_num [detailSeverityOf]
    · intro hp
      show detailSeverityOf _ = _
      rw [hp]
      norm_num [detailSeverityOf]
    · intro hp
      show detailSeverityOf _ = _
      rw [hp]
      norm_num [detailSeverityOf]

/-- The detail row returned for `wSchool` with the single metric `m1`. -/
def wDetail : SchoolIssueDetail where
  schoolId := 1
  schoolName := "s"
  performanceTier := 2
  severity := .critical
  affectedMetrics := ["m1"]

/-- Concrete evaluation of `buildSchoolDetail` on `wSchool`. -/
theorem buildSchoolDetail_concrete :
    buildSchoolDetail (fun k => k) ["m1"] wSchool = some wDetail := by
  norm_num [buildSchoolDetail, wSchool, wDetail, lowScoreFlag, List.filter_cons,
    detailSeverityOf]

/-- C4 (witness): the school whose single issue metric is low has
percentage 100 and is classified critical. -/
theorem buildSchoolDetail_severity_witness : wDetail.severity = .critical :=
  (buildSchoolDetail_severity (fun k => k) ["m1"] wSchool wDetail
    buildSchoolDetail_concrete).2.2.2.2.1 (by
      norm_num [wSchool, lowScoreFlag, List.filter_cons])

/-! ### Claim C5 -/

/-- C5: a sub-category whose average over the school's set positive scores
is at least 3.5 emits no challenge entry at all, even when it contains a
metric scored ≤ 3; when the average is below 3.5 the emitted entries are
exactly one per scored metric with score ≤ 3. -/
theorem subCatChallenges_dampening (challengeText : String → Option String)
    (school : School) (subCat : SubCategory) :
    (7/2 ≤ ((subCatMetricsWithScores school subCat).map (fun p => p.2)).sum
        / ((subCatMetricsWithScores school subCat).length : ℚ) →
      subCatChallenges challengeText school subCat = []) ∧
    (((subCatMetricsWithScores school subCat).map (fun p => p.2)).sum
        / ((subCatMetricsWithScores school subCat).length : ℚ) < 7/2 →
      subCatChallenges challengeText school subCat
        = ((subCatMetricsWithScores school subCat).filter (fun p => p.2 ≤ 3)).map
            (fun p =>
              { subCategory := subCat.name
                text := (challengeText p.1.key).getD
                  ("תפקוד נמוך במדד: \"" ++ p.1.name ++ "\"") })) := by
  unfold subCatChallenges
  by_cases h0 : (subCatMetricsWithScores school subCat).length = 0
  · rw [if_pos h0]
    have hnil : subCatMetricsWithScores school subCat = [] := List.length_eq_zero.mp h0
    rw [hnil]
    exact ⟨fun _ => rfl, fun _ => rfl⟩
  · rw [if_neg h0]
    constructor
    · intro h
      rw [if_neg (not_lt.mpr h)]
    · intro h
      rw [if_pos h]

/-- The concrete sub-category for the C5 witness: six metrics, the last
one scored 1 and the rest 4, so the average is exactly 3.5. -/
def w5SubCat : SubCategory where
  name := "sc"
  metrics := [{ key := "m1", name := "M1" }, { key := "m2", name := "M2" }, { key := "m3", name := "M3" }, { key := "m4", name := "M4" }, { key := "m5", name := "M5" }, { key := "m6", name := "M6" }]

/-- The concrete school for the C5 witness. -/
def w5School : School where
  id := 5
  name := "w5"
  students := none
  score := fun k => if k = "m6" then some 1 else some 4

/-- C5 (witness): with scores [4,4,4,4,4,1] the sub-category average is
exactly 3.5, and no challenge is emitted although one metric is scored 1. -/
theorem subCatChallenges_dampening_witness :
    subCatChallenges (fun _ => none) w5School w5SubCat = [] :=
  (subCatChallenges_dampening (fun _ => none) w5School w5SubCat).1 (by
    simp [subCatMetricsWithScores, positiveScore, w5School, w5SubCat,
      List.filterMap_cons, List.filterMap_nil]
    norm_num)

/-! ### Claim C3 -/

/-- The school with one score slot set to unset. -/
def blankSlot (school : School) (metric : String) : School :=
  { school with score := fun k => if k = metric then none else school.score k }

/-- Blanking one slot of an analysed school. -/
def blankSlotA (metric : String) (s : SchoolForAnalysis) : SchoolForAnalysis :=
  { s with base := blankSlot s.base metric }

/-- A slot that the averaging filters actually drop: parse failure (empty
or non-numeric) or a non-positive parsed value. -/
def excludedSlot (school : School) (metric : String) : Prop :=
  school.score metric = none ∨ ∃ v, school.score metric = some v ∧ v ≤ 0

/-- Blanking an excluded slot does not change the positive-score filter on
any metric. -/
theorem positiveScore_blankSlot (school : School) (metric : String)
    (h : excludedSlot school metric) (k : String) :
    positiveScore (blankSlot school metric) k = positiveScore school k := by
  unfold positiveScore blankSlot
  by_cases hk : k = metric
  · subst hk
    rcases h with h | ⟨v, hv, hv0⟩
    · simp [h]
    · simp [hv, if_neg (not_lt.mpr hv0)]
  · simp [hk]

/-- Blanking an excluded slot does not change the positive filtered score
list built through `getD 0`. -/
theorem map_getD_filter_blankSlot (school : School) (metric : String)
    (h : excludedSlot school metric) (fields : List String) :
    ((fields.map (fun f => ((blankSlot school metric).score f).getD 0)).filter
        (fun v => decide (0 < v)))
      = ((fields.map (fun f => (school.score f).getD 0)).filter
          (fun v => decide (0 < v))) := by
  induction fields with
  | nil => rfl
  | cons f t ih =>
    rw [List.map_cons, List.map_cons, List.filter_cons, List.filter_cons, ih]
    by_cases hf : f = metric
    · subst hf
      rcases h with h | ⟨v, hv, hv0⟩
      · simp [blankSlot, h]
      · simp [blankSlot, hv, lt_self_iff_false, not_lt.mpr hv0]
    · simp [blankSlot, hf]

/-- The per-school positive score list of the issue-engine averages does
not change when an excluded slot is blanked. -/
theorem filterMap_positiveScore_blankSlot (metrics : List String)
    (s : SchoolForAnalysis) (metric : String) (h : excludedSlot s.base metric) :
    metrics.filterMap (positiveScore (blankSlotA metric s).base)
      = metrics.filterMap (positiveScore s.base) :=
  List.filterMap_congr (fun k _ => positiveScore_blankSlot s.base metric h k)

/-- C3 (amended): every averaging computation in the core (the per-issue
category average, the main-domain averages, the sub-category averages, the
report-card overall average) excludes score slots whose value is empty,
non-numeric, or non-positive: blanking one such slot — one school's cell,
all other schools untouched — leaves every average unchanged.  Numeric
values greater than 4 are NOT excluded (see the counterexample
theorem). -/
theorem averages_ignore_nonpositive (metrics : List String)
    (l₁ l₂ : List SchoolForAnalysis) (s : SchoolForAnalysis) (metric : String)
    (mainCat : Category) (subCat : SubCategory) (fields : List String)
    (school : School)
    (hs : excludedSlot s.base metric) (hsch : excludedSlot school metric) :
    calculateAverageForCategory metrics (l₁ ++ blankSlotA metric s :: l₂) =
      calculateAverageForCategory metrics (l₁ ++ s :: l₂) ∧
    mainDomainAverage (l₁ ++ blankSlotA metric s :: l₂) mainCat =
      mainDomainAverage (l₁ ++ s :: l₂) mainCat ∧
    subCategoryAverage (l₁ ++ blankSlotA metric s :: l₂) subCat =
      subCategoryAverage (l₁ ++ s :: l₂) subCat ∧
    reportCardOverallAverage fields (blankSlot school metric) =
      reportCardOverallAverage fields school := by
  have hflat : ∀ ms : List String,
      (l₁ ++ blankSlotA metric s :: l₂).flatMap
          (fun x => ms.filterMap (positiveScore x.base))
        = (l₁ ++ s :: l₂).flatMap (fun x => ms.filterMap (positiveScore x.base)) := by
    intro ms
    have hone : ms.filterMap (positiveScore (blankSlotA metric s).base)
        = ms.filterMap (positiveScore s.base) :=
      filterMap_positiveScore_blankSlot ms s metric hs
    simp only [List.flatMap_append, List.flatMap_cons, hone]
  have hflatm : ∀ ms : List Metric,
      (l₁ ++ blankSlotA metric s :: l₂).flatMap
          (fun x => ms.filterMap (fun m => positiveScore x.base m.key))
        = (l₁ ++ s :: l₂).flatMap
            (fun x => ms.filterMap (fun m => positiveScore x.base m.key)) := by
    intro ms
    have hone : ms.filterMap (fun m => positiveScore (blankSlotA metric s).base m.key)
        = ms.filterMap (fun m => positiveScore s.base m.key) :=
      List.filterMap_congr (fun m _ =>
        positiveScore_blankSlot s.base metric hs m.key)
    simp only [List.flatMap_append, List.flatMap_cons, hone]
  have hlen : (l₁ ++ blankSlotA metric s :: l₂).length = (l₁ ++ s :: l₂).length := by
    simp
  refine ⟨?_, ?_, ?_, ?_⟩
  · unfold calculateAverageForCategory
    rw [hlen, hflat metrics]
  · unfold mainDomainAverage
    simp only [hflatm]
  · unfold subCategoryAverage
    simp only [hflatm]
  · unfold reportCardOverallAverage
    rw [map_getD_filter_blankSlot school metric hsch fields]

/-- The school for the C3 counterexample: its only set slot parses to 5. -/
def c3School : SchoolForAnalysis where
  base :=
    { id := 1
      name := "c"
      students := none
      score := fun _ => some 5 }
  tier := 2

/-- C3 (counterexample): a slot holding the numeric value 5 > 4
contributes to the category average — the average over a school set whose
only set slot is a 5 is 5, not the empty default 0 that exclusion would
give.  So out-of-range values above 4 are not excluded from averages. -/
theorem calculateAverage_includes_five :
    calculateAverageForCategory ["m1"] [c3School] = 5 ∧ (4:ℚ) < 5 := by
  constructor
  · norm_num [calculateAverageForCategory, positiveScore, c3School,
      List.filterMap_cons, List.filterMap_nil]
  · norm_num

/-- The school for the C3 witness: its only set slot parses to 0. -/
def w3School : SchoolForAnalysis where
  base :=
    { id := 1
      name := "w3"
      students := none
      score := fun _ => some 0 }
  tier := 2

/-- A companion school for the C3 witness that scores a positive 4 on the
same metric, so the blanked column is mixed, not uniformly excluded. -/
def w3Pos : SchoolForAnalysis where
  base :=
    { id := 2
      name := "wp"
      students := none
      score := fun _ => some 4 }
  tier := 2

/-- C3 (witness): blanking the single non-positive slot of one school
leaves the category average unchanged even though another school scores a
positive 4 on that same metric. -/
theorem averages_ignore_nonpositive_witness :
    calculateAverageForCategory ["m1"] ([w3Pos] ++ blankSlotA "m1" w3School :: []) =
      calculateAverageForCategory ["m1"] ([w3Pos] ++ w3School :: []) :=
  (averages_ignore_nonpositive ["m1"] [w3Pos] [] w3School "m1"
    { name := "cat", subCategories := [] } { name := "sc", metrics := [] } []
    w3School.base
    (Or.inr ⟨0, rfl, le_refl 0⟩)
    (Or.inr ⟨0, rfl, le_refl 0⟩)).1

/-! ### Claim C10 -/

/-- The first school for the C10 input: its slot parses to 2, a genuine
low positive score. -/
def w10A : SchoolForAnalysis where
  base :=
    { id := 1
      name := "sa"
      students := none
      score := fun _ => some 2 }
  tier := 2

/-- The second school for the C10 input: its slot parses to 0, which the
detail filter counts but the issue-level counters ignore. -/
def w10B : SchoolForAnalysis where
  base :=
    { id := 2
      name := "sb"
      students := none
      score := fun _ => some 0 }
  tier := 2

/-- The issue the engine returns on [`w10A`, `w10B`] with metric `m1`:
two detail rows but only one affected school. -/
def w10Issue : Issue where
  id := "i"
  affectedSchools := 1
  totalSchools := 2
  severity := .critical
  urgency := 70
  schoolDetails := [{ schoolId := 1, schoolName := "sa", performanceTier := 2, severity := .critical, affectedMetrics := ["m1"] }, { schoolId := 2, schoolName := "sb", performanceTier := 2, severity := .critical, affectedMetrics := ["m1"] }]
  overallAverage := 2
  tier1Average := 0
  tier2Average := 2
  tier3Average := 0

/-- C10: a slot parsing to a value ≤ 0 passes the detail filter of
`buildSchoolDetails` (`!isNaN && score ≤ 2`) but is dropped by the
positive filter of the issue-level counters, so it neither increments
`totalScoresCount` nor marks the school affected; consequently, on a
concrete input, the issue's `schoolDetails` list holds more schools than
`affectedSchools` reports. -/
theorem nonpositive_detail_not_affected :
    (∀ (school : School) (metric : String) (v : ℚ),
        school.score metric = some v → v ≤ 0 →
        lowScoreFlag school metric = true ∧ positiveScore school metric = none) ∧
    (∃ issue, analyzeIssue (fun k => k) "i" ["m1"] [w10A, w10B] = some issue ∧
        issue.affectedSchools < issue.schoolDetails.length) := by
  constructor
  · intro school metric v hv hv0
    constructor
    · unfold lowScoreFlag
      rw [hv]
      exact decide_eq_true (le_trans hv0 (by norm_num))
    · unfold positiveScore
      rw [hv]
      exact if_neg (not_lt.mpr hv0)
  · refine ⟨w10Issue, ?_, by norm_num [w10Issue]⟩
    rw [analyzeIssue_eq_some_iff]
    constructor
    · norm_num [issueAffectedIds, positiveScore, w10A, w10B, List.filter_cons,
        List.filterMap_cons, List.filterMap_nil]
    · norm_num [w10Issue, w10A, w10B, issueAffectedIds, issueTotalScoresCount,
        issueTotalLowScores, positiveScore, urgencyOf, jsRound, issueSeverityOf,
        buildSchoolDetails, buildSchoolDetail, lowScoreFlag, detailSeverityOf,
        calculateAverageForCategory, List.filter_cons, List.filterMap_cons,
        List.filterMap_nil, List.dedup_cons_of_not_mem, List.dedup_nil]

/-- C10 (witness): the universal half evaluated at a concrete school whose
slot parses to 0. -/
theorem nonpositive_detail_not_affected_witness :
    lowScoreFlag w10B.base "m1" = true ∧ positiveScore w10B.base "m1" = none :=
  nonpositive_detail_not_affected.1 w10B.base "m1" 0 rfl (by norm_num)
